import Mathlib

/-
  A shallow embedding of `uni_form/helpers.py` (django-uni-form helpers):
  layout objects (`Layout`, `Fieldset`, `MultiField`, `Div`, `Row`, `Column`,
  `ButtonHolder`, `HTML`, `BaseInput` subclasses), the `render_field` utility
  and the `FormHelper` configuration object.

  Modelling conventions, used consistently below:
  * Python in-place mutation is modelled by explicit state passing.  The only
    mutable pieces of state touched while rendering are
    `form.rendered_fields` (threaded as a `List String` called `rendered`)
    and the layout objects themselves (each render function returns the
    updated node, modelling in-place attribute mutation such as
    `self.css_class += " error"` and `self.bound_fields = [...]`).
    `form.fields` and `form.errors` are never mutated by this file's code,
    so `Form` carries them immutably.
  * Exceptions are modelled with `Except String`; `Except.error` is a raised
    exception.  Messages keep the source's wording minus quote characters.
  * Calls out of this file into the host framework (Django) are collected in
    a `Host` structure: template loading (`render_to_string`), compiling and
    rendering a runtime template string against the page context
    (`template_render`), URL reversal (`reverse`, `none` models
    `NoReverseMatch`), `slugify`, HTML autoescaping of interpolated
    variables (`escape`), and the attributes Django's `BoundField` exposes
    to templates (`bf_errors`, `bf_auto_id`, `bf_help_text`).
  * The inline template string literals of the source are embedded as Lean
    string-building functions: `{% if x %}` becomes an `if` on the model
    value, `{{ x }}` becomes `escape` interpolation, `{{ x|safe }}` plain
    interpolation.  Inter-tag whitespace of the template literals is
    normalised to single spaces; no theorem below depends on whitespace.
  * Python `None` and `''` are conflated to `""` for the css attributes:
    in the source they are only ever tested for template truthiness, where
    the two are indistinguishable.  Keyword arguments that may be absent are
    `Option` arguments of the constructor functions.
  * Python 2 coerces field names with `str`/`unicode` using the ASCII codec
    (helpers.py lines 159-169); any non-ASCII name raises.  `asciiOnly`
    models that coercion test.
-/

namespace UniForm

/-- Abstract carrier for a Django template rendering context (`Context`).
The code only passes it through to host-framework rendering. -/
structure Ctx where
  id : Nat
deriving DecidableEq

/-- Abstract carrier for a Django form-field definition object
(a value of `form.fields`). -/
structure FieldInst where
  id : Nat
deriving DecidableEq

/-- The slice of a Django form/formset that `helpers.py` reads:
the `fields` mapping (an ordered key/value association) and the
truthiness of `form.errors`.  `form.rendered_fields`, which the source
mutates, is threaded separately as explicit state. -/
structure Form where
  fields : List (String × FieldInst)
  errors : Bool
deriving DecidableEq

/-- Model of `BoundField(form, field_instance, field)`: the host-framework construct
pairing the form with a resolved field definition and the field's name. -/
structure BoundField where
  form : Form
  field_instance : FieldInst
  name : String
deriving DecidableEq

/-- The host web framework (Django) operations that `helpers.py` delegates
to.  They are parameters of the embedding: every theorem holds for an
arbitrary `Host`. -/
structure Host where
  render_to_string : String → BoundField → Option String → String
  template_render : String → Ctx → String
  reverse : String → Option String
  slugify : String → String
  escape : String → String
  bf_errors : BoundField → List String
  bf_auto_id : BoundField → String
  bf_help_text : BoundField → String

/-- A string marked as safe markup (`django.utils.safestring.mark_safe`). -/
structure SafeString where
  string : String
deriving DecidableEq

/-- Model of `mark_safe(html)`. -/
def mark_safe (s : String) : SafeString := ⟨s⟩

/-- Exception raised when building a form via helpers throws an error
(`FormHelpersException`). -/
structure FormHelpersException where
  msg : String
deriving DecidableEq

/-- The `input_type` class attribute distinguishing the four concrete
`BaseInput` subclasses. -/
inductive InputType where
  | submit
  | button
  | hidden
  | reset
deriving DecidableEq

/-- The `input_type` string of each `BaseInput` subclass. -/
def InputType.str : InputType → String
  | .submit => "submit"
  | .button => "button"
  | .hidden => "hidden"
  | .reset => "reset"

/-- A node of the rendering tree.  One constructor per layout-object class
of `helpers.py`, plus `field` for plain string field names (the leaves) and
`input` covering the four concrete `BaseInput` subclasses (tagged by
`InputType`).  Constructor arguments are the instance attributes each class
carries; `multifield` also carries `bound_fields`, assigned by
`MultiField.render`. -/
inductive LNode where
  | field (name : String)
  | layout (fields : List LNode)
  | fieldset (css_class : String) (css_id : String) (legend : String) (fields : List LNode)
  | multifield (label_class : String) (label_html : String) (css_class : String)
      (css_id : String) (bound_fields : List BoundField) (fields : List LNode)
  | div (css_class : String) (css_id : String) (fields : List LNode)
  | row (css_class : String) (css_id : String) (fields : List LNode)
  | column (css_class : String) (css_id : String) (fields : List LNode)
  | buttonholder (css_class : String) (css_id : String) (fields : List LNode)
  | html (html : String)
  | input (input_type : InputType) (name : String) (value : String) (field_classes : String)

/-- Model of `hasattr(field, 'render')`: every layout-object class defines `render`;
plain strings do not. -/
def hasRender : LNode → Bool
  | .field _ => false
  | _ => true

/-- The Python 2 `str`/`unicode` coercion applied to field names in
`render_field` succeeds exactly when the name is pure ASCII.
(Char-list formulation so that closed terms evaluate in the kernel.) -/
def asciiOnly (s : String) : Bool :=
  s.data.all (fun c => c.toNat ≤ 127)

/-- Python `str.lower()` (char-list formulation, kernel-evaluable). -/
def lowerStr (s : String) : String :=
  ⟨s.data.map Char.toLower⟩

/-- A whitespace character as stripped by Python `str.strip()`. -/
def isSpaceChar (c : Char) : Bool :=
  c = ' ' ∨ c = '\t' ∨ c = '\n' ∨ c = '\r'

/-- Python `str.strip()`: drop leading and trailing whitespace
(char-list formulation, kernel-evaluable). -/
def stripStr (s : String) : String :=
  ⟨((s.data.dropWhile isSpaceChar).reverse.dropWhile isSpaceChar).reverse⟩

/- Constructor functions modelling each class's `__init__`.  An `Option`
argument models an optional keyword argument (`none` = not passed). -/

/-- Model of `Layout(*fields)`. -/
def Layout (fields : List LNode) : LNode :=
  .layout fields

/-- Model of `Fieldset(legend, *fields, **kwargs)`: `css_class` defaults to `''`,
`css_id` to `None`; `legend` is compiled to a template (rendered against the
page context at render time, see `renderNode`). -/
def Fieldset (legend : String) (fields : List LNode)
    (css_class css_id : Option String) : LNode :=
  .fieldset (css_class.getD ("")) (css_id.getD ("")) legend fields

/-- Model of `MultiField(label, *fields, **kwargs)`: `label_class` defaults to
`'blockLabel'`, `css_class` to `'ctrlHolder'`, `css_id` to `None`. -/
def MultiField (label : String) (fields : List LNode)
    (label_class css_class css_id : Option String) : LNode :=
  .multifield (label_class.getD ("blockLabel")) label (css_class.getD ("ctrlHolder"))
    (css_id.getD ("")) [] fields

/-- Model of `Div(*fields, **kwargs)`: no `css_class` class attribute, so
`css_class = kwargs.get('css_class', None)`; `css_id` defaults to `''`. -/
def Div (fields : List LNode) (css_class css_id : Option String) : LNode :=
  .div (css_class.getD ("")) (css_id.getD ("")) fields

/-- Model of `Row(...)`: `Div` subclass with class attribute `css_class = 'formRow'`;
a `css_class` keyword is appended after a space. -/
def Row (fields : List LNode) (css_class css_id : Option String) : LNode :=
  .row (match css_class with
        | some c => "formRow" ++ " " ++ c
        | none => "formRow")
    (css_id.getD ("")) fields

/-- Model of `Column(...)`: `Div` subclass with class attribute
`css_class = 'formColumn'`. -/
def Column (fields : List LNode) (css_class css_id : Option String) : LNode :=
  .column (match css_class with
           | some c => "formColumn" ++ " " ++ c
           | none => "formColumn")
    (css_id.getD ("")) fields

/-- Model of `ButtonHolder(*fields, **kwargs)`. -/
def ButtonHolder (fields : List LNode) (css_class css_id : Option String) : LNode :=
  .buttonholder (css_class.getD ("")) (css_id.getD ("")) fields

/-- Model of `HTML(html)`. -/
def HTML (html : String) : LNode :=
  .html html

/-- Model of `BaseInput.__init__`: a `css_class` keyword is appended to the
subclass's `field_classes` after a space. -/
def baseInputClasses (default : String) (css_class : Option String) : String :=
  match css_class with
  | some c => default ++ " " ++ c
  | none => default

/-- Model of `Submit(name, value, **kwargs)`: `input_type = 'submit'`,
`field_classes = 'submit submitButton'`. -/
def Submit (name value : String) (css_class : Option String) : LNode :=
  .input .submit name value (baseInputClasses ("submit submitButton") css_class)

/-- Model of `Button(name, value, **kwargs)`: `input_type = 'button'`,
`field_classes = 'button'`. -/
def Button (name value : String) (css_class : Option String) : LNode :=
  .input .button name value (baseInputClasses ("button") css_class)

/-- Model of `Hidden(name, value, **kwargs)`: `input_type = 'hidden'`,
`field_classes = 'hidden'`. -/
def Hidden (name value : String) (css_class : Option String) : LNode :=
  .input .hidden name value (baseInputClasses ("hidden") css_class)

/-- Model of `Reset(name, value, **kwargs)`: `input_type = 'reset'`,
`field_classes = 'reset resetButton'`. -/
def Reset (name value : String) (css_class : Option String) : LNode :=
  .input .reset name value (baseInputClasses ("reset resetButton") css_class)

/- The inline template literals of the source, as string builders. -/

/-- Inline template of `ButtonHolder.render`. -/
def buttonholder_template (h : Host) (css_id css_class fields_output : String) : String :=
  "<div " ++ (if css_id ≠ "" then "id=\"" ++ h.escape css_id ++ "\"" else "") ++
  " class=\"buttonHolder" ++
  (if css_class ≠ "" then " " ++ h.escape css_class else "") ++ "\"> " ++
  fields_output ++ " </div>"

/-- Inline template of `BaseInput.render` (`{% ifnotequal input.input_type
"hidden" %}` guards the class and id attributes). -/
def baseinput_template (h : Host) (input_type name value field_classes : String) : String :=
  "<input type=\"" ++ h.escape input_type ++ "\" name=\"" ++ h.slugify name ++
  "\" value=\"" ++ h.escape value ++ "\" " ++
  (if input_type ≠ "hidden" then
    "class=\"" ++ h.escape field_classes ++ "\" id=\"" ++ h.escape input_type ++
    "-id-" ++ h.slugify name ++ "\" "
  else "") ++ "/>"

/-- Inline template of `Fieldset.render`. -/
def fieldset_template (h : Host) (css_id css_class form_style legend fields : String) : String :=
  "<fieldset " ++ (if css_id ≠ "" then "id=\"" ++ h.escape css_id ++ "\"" else "") ++ " " ++
  (if css_class ≠ "" ∨ form_style ≠ "" then
    "class=\"" ++ h.escape css_class ++ " " ++ h.escape form_style ++ "\""
  else "") ++ "> <legend>" ++ legend ++ "</legend> " ++ fields ++ " </fieldset>"

/-- Inline template of `Div.render` (also used by `Row` and `Column`). -/
def div_template (h : Host) (css_id css_class fields : String) : String :=
  "<div " ++ (if css_id ≠ "" then "id=\"" ++ h.escape css_id ++ "\"" else "") ++ " " ++
  (if css_class ≠ "" then "class=\"" ++ h.escape css_class ++ "\"" else "") ++ "> " ++
  fields ++ " </div>"

/-- The error paragraphs of `MultiField.render`'s inline template: for each
bound field, one `<p>` per error, numbered by `forloop.counter` (1-based). -/
def multifield_errors_html (h : Host) (bfs : List BoundField) : String :=
  String.join (bfs.map (fun bf =>
    String.join ((h.bf_errors bf).enum.map (fun p =>
      "<p id=\"error_" ++ toString (p.1 + 1) ++ "_" ++ h.escape (h.bf_auto_id bf) ++
      "\" class=\"errorField\">" ++ p.2 ++ "</p>"))))

/-- The help-text paragraphs of `MultiField.render`'s inline template. -/
def multifield_help_html (h : Host) (bfs : List BoundField) : String :=
  String.join (bfs.map (fun bf =>
    if h.bf_help_text bf ≠ "" then
      "<p id=\"hint_" ++ h.escape (h.bf_auto_id bf) ++ "\" class=\"formHint\">" ++
      h.bf_help_text bf ++ "</p>"
    else ""))

/-- Inline template of `MultiField.render`.  Note: the template's
`{% if multifield.css_id or errors %}` refers to a context variable
`errors` that is not in the `Context` passed to it, so it resolves to
empty (falsy) and the condition reduces to the truthiness of `css_id`. -/
def multifield_template (h : Host) (css_id css_class label_class label_html : String)
    (bound_fields : List BoundField) (fields_output : String) : String :=
  "<div " ++ (if css_id ≠ "" then "id=\"" ++ h.escape css_id ++ "\"" else "") ++ " " ++
  (if css_class ≠ "" then "class=\"" ++ h.escape css_class ++ "\"" else "") ++ "> " ++
  multifield_errors_html h bound_fields ++
  (if label_html ≠ "" then
    "<p " ++ (if label_class ≠ "" then "class=\"" ++ h.escape label_class ++ "\"" else "") ++
    ">" ++ label_html ++ "</p>"
  else "") ++
  "<div class=\"multiField\"> " ++ fields_output ++ " </div>" ++
  multifield_help_html h bound_fields ++ " </div>"

/- `render_field` and the `render` methods (helpers.py lines 134-198 and the
per-class `render` methods).  The result of rendering one node is
`(html, rendered, node, new_bound_fields)`:
  * `html` — the returned markup;
  * `rendered` — the updated `form.rendered_fields`;
  * `node` — the node after in-place mutation;
  * `new_bound_fields` — the `BoundField`s appended to
    `layout_object.bound_fields` (empty when no `layout_object` is passed,
    and for arguments that expose `render`, which return early). -/

/-- The string-leaf path of `render_field` (everything after the
`hasattr(field, 'render')` test fails): Python 2 unicode coercion, lookup in
`form.fields` with the `KeyError` branch, the `rendered_fields`
double-rendering bookkeeping, then `BoundField` construction and rendering
through the field template. -/
def render_field_str (h : Host) (FAIL_SILENTLY : Bool) (name : String) (form : Form)
    (template : String) (labelclass : Option String) (has_layout_object : Bool)
    (rendered : List String) :
    Except String (String × List String × LNode × List BoundField) :=
  -- unicode coercion of the name (helpers.py 159-169)
  if ¬ asciiOnly name then
    .error ("Field " ++ name ++ " is using forbidden unicode characters")
  else
    -- try: field_instance = form.fields[field] / except KeyError (171-178)
    match form.fields.lookup name with
    | none =>
      if ¬ FAIL_SILENTLY then
        .error ("Could not resolve form field " ++ name ++ ".")
      else
        -- field_instance = None; a warning is logged (not modelled)
        -- double-rendering bookkeeping (180-186)
        if name ∉ rendered then
          .ok ("", rendered ++ [name], .field name, [])
        else if ¬ FAIL_SILENTLY then
          .error ("A field should only be rendered once: " ++ name)
        else
          .ok ("", rendered, .field name, [])
    | some field_instance =>
      -- double-rendering bookkeeping (180-186)
      let step2 : List String → Except String (String × List String × LNode × List BoundField) :=
        fun rendered1 =>
          -- BoundField construction and template rendering (188-196)
          let bound_field : BoundField := ⟨form, field_instance, name⟩
          let html := h.render_to_string template bound_field labelclass
          .ok (html, rendered1, .field name,
               if has_layout_object then [bound_field] else [])
      if name ∉ rendered then
        step2 (rendered ++ [name])
      else if ¬ FAIL_SILENTLY then
        .error ("A field should only be rendered once: " ++ name)
      else
        step2 rendered

mutual

/-- The `render(self, form, form_style, context)` method of each
layout-object class, dispatched on the node kind.  Returns the markup, the
updated `rendered_fields` state and the node after in-place mutation.
Called on a plain string node it models Python's `AttributeError` (strings
have no `render`); `render_field` never takes that branch. -/
def renderNode (h : Host) (FAIL_SILENTLY : Bool) (node : LNode) (form : Form)
    (form_style : String) (context : Ctx) (rendered : List String) :
    Except String (String × List String × LNode) :=
  match node with
  | .field _ =>
      .error ("AttributeError: str object has no attribute render")
  | .layout fields =>
      -- Layout.render (237-241): html = ''; html += render_field(...)
      match renderChildren h FAIL_SILENTLY fields form form_style context
              "uni_form/field.html" none false rendered with
      | .error e => .error e
      | .ok (html, rendered1, fields1, _) =>
          .ok (html, rendered1, .layout fields1)
  | .fieldset css_class css_id legend fields =>
      -- Fieldset.render (270-285)
      match renderChildren h FAIL_SILENTLY fields form form_style context
              "uni_form/field.html" none false rendered with
      | .error e => .error e
      | .ok (fields_html, rendered1, fields1, _) =>
          let legend_html := h.template_render legend context
          .ok (fieldset_template h css_id css_class form_style legend_html fields_html,
               rendered1, .fieldset css_class css_id legend fields1)
  | .multifield label_class label_html css_class css_id _bound_fields fields =>
      -- MultiField.render (299-341): `if form.errors: self.css_class += " error"`,
      -- then `self.bound_fields = []` and the render_field loop with
      -- template 'uni_form/multifield.html', labelclass self.label_class and
      -- layout_object=self.
      let css_class1 := if form.errors then css_class ++ " error" else css_class
      match renderChildren h FAIL_SILENTLY fields form form_style context
              "uni_form/multifield.html" (some label_class) true rendered with
      | .error e => .error e
      | .ok (fields_output, rendered1, fields1, bound_fields1) =>
          .ok (multifield_template h css_id css_class1 label_class label_html
                 bound_fields1 fields_output,
               rendered1,
               .multifield label_class label_html css_class1 css_id bound_fields1 fields1)
  | .div css_class css_id fields =>
      -- Div.render (362-375)
      match renderChildren h FAIL_SILENTLY fields form form_style context
              "uni_form/field.html" none false rendered with
      | .error e => .error e
      | .ok (fields_html, rendered1, fields1, _) =>
          .ok (div_template h css_id css_class fields_html, rendered1,
               .div css_class css_id fields1)
  | .row css_class css_id fields =>
      -- Row inherits Div.render
      match renderChildren h FAIL_SILENTLY fields form form_style context
              "uni_form/field.html" none false rendered with
      | .error e => .error e
      | .ok (fields_html, rendered1, fields1, _) =>
          .ok (div_template h css_id css_class fields_html, rendered1,
               .row css_class css_id fields1)
  | .column css_class css_id fields =>
      -- Column inherits Div.render
      match renderChildren h FAIL_SILENTLY fields form form_style context
              "uni_form/field.html" none false rendered with
      | .error e => .error e
      | .ok (fields_html, rendered1, fields1, _) =>
          .ok (div_template h css_id css_class fields_html, rendered1,
               .column css_class css_id fields1)
  | .buttonholder css_class css_id fields =>
      -- ButtonHolder.render (45-58)
      match renderChildren h FAIL_SILENTLY fields form form_style context
              "uni_form/field.html" none false rendered with
      | .error e => .error e
      | .ok (fields_html, rendered1, fields1, _) =>
          .ok (buttonholder_template h css_id css_class fields_html, rendered1,
               .buttonholder css_class css_id fields1)
  | .html s =>
      -- HTML.render (410-411): Template(self.html).render(context)
      .ok (h.template_render s context, rendered, .html s)
  | .input input_type name value field_classes =>
      -- BaseInput.render (72-87)
      .ok (baseinput_template h input_type.str name value field_classes,
           rendered, .input input_type name value field_classes)

/-- The `for field in self.fields: html += render_field(field, ...)` loop
shared by the container classes' `render` methods, with the extra
`render_field` arguments (`template`, `labelclass`, `layout_object`) the
caller passes.  The head step is `render_field`'s body (dispatch on
`hasattr(field, 'render')`, see `render_field` below and
`renderChildren_cons_eq`); it is inlined here so the mutual recursion is
structural. -/
def renderChildren (h : Host) (FAIL_SILENTLY : Bool) (fields : List LNode) (form : Form)
    (form_style : String) (context : Ctx) (template : String)
    (labelclass : Option String) (has_layout_object : Bool) (rendered : List String) :
    Except String (String × List String × List LNode × List BoundField) :=
  match fields with
  | [] => .ok ("", rendered, [], [])
  | f :: fs =>
      match (match f with
             | .field name =>
                 render_field_str h FAIL_SILENTLY name form template labelclass
                   has_layout_object rendered
             | n =>
                 match renderNode h FAIL_SILENTLY n form form_style context rendered with
                 | .error e => .error e
                 | .ok (html, rendered1, n1) => .ok (html, rendered1, n1, [])) with
      | .error e => .error e
      | .ok (html, rendered1, f1, bfs1) =>
          match renderChildren h FAIL_SILENTLY fs form form_style context template
                  labelclass has_layout_object rendered1 with
          | .error e => .error e
          | .ok (html2, rendered2, fs2, bfs2) =>
              .ok (html ++ html2, rendered2, f1 :: fs2, bfs1 ++ bfs2)

end

/-- Model of `render_field(field, form, form_style, context, template,
labelclass, layout_object)` (helpers.py 134-198): if the field exposes `render`,
delegate to it; otherwise treat it as a string field name
(`render_field_str`). -/
def render_field (h : Host) (FAIL_SILENTLY : Bool) (field : LNode) (form : Form)
    (form_style : String) (context : Ctx) (template : String)
    (labelclass : Option String) (has_layout_object : Bool) (rendered : List String) :
    Except String (String × List String × LNode × List BoundField) :=
  match field with
  | .field name =>
      render_field_str h FAIL_SILENTLY name form template labelclass
        has_layout_object rendered
  | n =>
      match renderNode h FAIL_SILENTLY n form form_style context rendered with
      | .error e => .error e
      | .ok (html, rendered1, n1) => .ok (html, rendered1, n1, [])

/-- The heterogeneous values stored in the dictionary built by
`FormHelper.get_attributes`. -/
inductive AttrVal where
  | str (s : String)
  | bool (b : Bool)
  | inputs (l : List LNode)

/-- Model of `FormHelper` (helpers.py 414-502) with its class-attribute defaults.
`form_error_title` and `formset_error_title` default to `None`, conflated
with `""` (only their truthiness is ever used). -/
structure FormHelper where
  _form_method : String := "post"
  _form_action : String := ""
  _form_style : String := "default"
  form_id : String := ""
  form_class : String := ""
  inputs : List LNode := []
  layout : Option LNode := none
  form_tag : Bool := true
  form_error_title : String := ""
  formset_error_title : String := ""

/-- Model of `FormHelper.get_form_method`. -/
def get_form_method (helper : FormHelper) : String :=
  helper._form_method

/-- Model of `FormHelper.set_form_method` (507-515): raises `FormHelpersException`
unless `method.lower()` is `get` or `post`; on error the helper is returned
unchanged (the exception is raised before any assignment). -/
def set_form_method (helper : FormHelper) (method : String) :
    Option FormHelpersException × FormHelper :=
  if lowerStr method ∉ ["get", "post"] then
    (some ⟨"Only GET and POST are valid in the form_method helper attribute"⟩, helper)
  else
    (none, { helper with _form_method := lowerStr method })

/-- Model of `FormHelper.get_form_action` (520-524): try `reverse(self._form_action)`,
on `NoReverseMatch` return the stored value unchanged. -/
def get_form_action (h : Host) (helper : FormHelper) : String :=
  match h.reverse helper._form_action with
  | some url => url
  | none => helper._form_action

/-- Model of `FormHelper.set_form_action`. -/
def set_form_action (helper : FormHelper) (action : String) : FormHelper :=
  { helper with _form_action := action }

/-- Model of `FormHelper.get_form_style` (532-537): `''` for `default`,
`'inlineLabels'` for `inline`; any other stored value falls off the end of
the function, i.e. Python returns `None` (`none` here). -/
def get_form_style (helper : FormHelper) : Option String :=
  if helper._form_style = "default" then some ("")
  else if helper._form_style = "inline" then some ("inlineLabels")
  else none

/-- Model of `FormHelper.set_form_style` (539-544): raises `FormHelpersException`
unless `style.lower()` is `default` or `inline`; on error the helper is
returned unchanged. -/
def set_form_style (helper : FormHelper) (style : String) :
    Option FormHelpersException × FormHelper :=
  if lowerStr style ∉ ["default", "inline"] then
    (some ⟨"Only default and inline are valid in the form_style helper attribute"⟩, helper)
  else
    (none, { helper with _form_style := lowerStr style })

/-- Model of `FormHelper.add_input`. -/
def add_input (helper : FormHelper) (input_object : LNode) : FormHelper :=
  { helper with inputs := helper.inputs ++ [input_object] }

/-- Model of `FormHelper.add_layout`. -/
def add_layout (helper : FormHelper) (layout : LNode) : FormHelper :=
  { helper with layout := some layout }

/-- The `for field in form.fields.keys(): if not field in
form.rendered_fields: html += render_field(field, ...)` loop of
`FormHelper.render_layout` (562-564).  Returns the appended markup and the
final `rendered_fields`. -/
def render_leftover (h : Host) (FAIL_SILENTLY : Bool) (keys : List String) (form : Form)
    (form_style : String) (context : Ctx) (rendered : List String) :
    Except String (String × List String) :=
  match keys with
  | [] => .ok ("", rendered)
  | k :: ks =>
      if k ∈ rendered then
        render_leftover h FAIL_SILENTLY ks form form_style context rendered
      else
        match render_field h FAIL_SILENTLY (.field k) form form_style context
                "uni_form/field.html" none false rendered with
        | .error e => .error e
        | .ok (html, rendered1, _, _) =>
            match render_leftover h FAIL_SILENTLY ks form form_style context rendered1 with
            | .error e => .error e
            | .ok (html2, rendered2) => .ok (html ++ html2, rendered2)

/-- Model of `FormHelper.render_layout(form, context)` (554-566): reset
`form.rendered_fields` to `[]`, render the layout with the helper's form
style, append the rendering of every form field the layout did not render,
and mark the result safe.  A helper whose `layout` is `None`, or whose
stored form style is invalid (`get_form_style` returns `None`), would crash
in Python with an `AttributeError`; both are modelled as errors.  The
in-place mutation of the layout tree is returned alongside. -/
def render_layout (h : Host) (FAIL_SILENTLY : Bool) (helper : FormHelper) (form : Form)
    (context : Ctx) : Except String (SafeString × List String × LNode) :=
  match helper.layout, get_form_style helper with
  | some lay, some form_style =>
      -- form.rendered_fields = []
      match renderNode h FAIL_SILENTLY lay form form_style context [] with
      | .error e => .error e
      | .ok (html, rendered1, lay1) =>
          match render_leftover h FAIL_SILENTLY (form.fields.map Prod.fst) form
                  form_style context rendered1 with
          | .error e => .error e
          | .ok (html2, rendered2) => .ok (mark_safe (html ++ html2), rendered2, lay1)
  | _, _ => .error ("AttributeError")

/-- Item list built by `FormHelper.get_attributes` (568-589) once the form
style is known: an ordered key/value list (a Python dict with distinct
literal keys), with the three unconditional entries followed by one
conditional entry per truthy attribute. -/
def attr_items (h : Host) (helper : FormHelper) (style : String) : List (String × AttrVal) :=
  ([("form_method", AttrVal.str (stripStr (get_form_method helper))),
             ("form_tag", AttrVal.bool helper.form_tag),
             ("form_style", AttrVal.str (stripStr style))] ++
            (if get_form_action h helper ≠ "" then
              [("form_action", AttrVal.str (stripStr (get_form_action h helper)))] else []) ++
            (if helper.form_id ≠ "" then
              [("id", AttrVal.str (stripStr helper.form_id))] else []) ++
            (if helper.form_class ≠ "" then
              [("class", AttrVal.str (stripStr helper.form_class))] else []) ++
            (if ¬ helper.inputs.isEmpty then
              [("inputs", AttrVal.inputs helper.inputs)] else []) ++
            (if helper.form_error_title ≠ "" then
              [("form_error_title", AttrVal.str (stripStr helper.form_error_title))] else []) ++
            (if helper.formset_error_title ≠ "" then
              [("formset_error_title", AttrVal.str (stripStr helper.formset_error_title))] else []))

/-- Model of `FormHelper.get_attributes` (568-589).  `None` if the stored
form style is invalid (Python would crash calling `.strip()` on `None`). -/
def get_attributes (h : Host) (helper : FormHelper) : Option (List (String × AttrVal)) :=
  match get_form_style helper with
  | none => none
  | some style => some (attr_items h helper style)

/- Evaluation fixtures: a concrete host and concrete forms, used to
instantiate the universally-quantified theorems below on closed inputs. -/

/-- A concrete host instantiation for evaluating the model on closed
inputs: field templates render to a bracketed tag, runtime templates render
to themselves, exactly one URL name reverses. -/
def hostW : Host :=
  { render_to_string := fun tmpl bf _ => "[" ++ tmpl ++ ":" ++ bf.name ++ "]"
    template_render := fun s _ => s
    reverse := fun s => if s = "known_url" then some ("/known/") else none
    slugify := fun s => s
    escape := fun s => s
    bf_errors := fun _ => []
    bf_auto_id := fun bf => bf.name
    bf_help_text := fun _ => "" }

/-- A concrete form with two fields and errors. -/
def formW : Form :=
  { fields := [("a", ⟨0⟩), ("b", ⟨1⟩)], errors := true }

/-- A concrete form with no fields and no errors. -/
def formE : Form :=
  { fields := [], errors := false }

/-- A concrete rendering context. -/
def ctxW : Ctx := ⟨0⟩

/- Shared helper lemmas. -/

/-- Dispatch of `render_field` for arguments exposing `render`: it returns
exactly `field.render(form, form_style, context)`, ignoring the `template`,
`labelclass` and `layout_object` arguments and appending no bound field. -/
lemma render_field_dispatch (h : Host) (FS : Bool) (f : LNode) (hf : hasRender f = true)
    (form : Form) (style : String) (ctx : Ctx) (template : String)
    (labelclass : Option String) (lo : Bool) (rendered : List String) :
    render_field h FS f form style ctx template labelclass lo rendered =
      match renderNode h FS f form style ctx rendered with
      | .error e => .error e
      | .ok (html, r1, f1) => .ok (html, r1, f1, []) := by
  cases f
  case field name => simp [hasRender] at hf
  all_goals rfl

/-- Unfolding of the `renderChildren` loop one step: the head step is
exactly `render_field` on the head child. -/
lemma renderChildren_cons (h : Host) (FS : Bool) (f : LNode) (fs : List LNode)
    (form : Form) (style : String) (ctx : Ctx) (template : String)
    (labelclass : Option String) (lo : Bool) (rendered : List String) :
    renderChildren h FS (f :: fs) form style ctx template labelclass lo rendered =
      match render_field h FS f form style ctx template labelclass lo rendered with
      | .error e => .error e
      | .ok (html, r1, f1, b1) =>
        match renderChildren h FS fs form style ctx template labelclass lo r1 with
        | .error e => .error e
        | .ok (html2, r2, fs2, b2) => .ok (html ++ html2, r2, f1 :: fs2, b1 ++ b2) := by
  cases f <;> rfl

/- Claim C5. -/

/-- Claim C5: for every `FormHelper` on which `form_action` was set to a
string `a`, reading `form_action` returns `reverse(a)` when `a` names a URL
pattern, and otherwise (when reversal raises `NoReverseMatch`, modelled as
`Host.reverse` returning `none`) returns `a` unchanged. -/
theorem uniform_c5 (h : Host) (helper : FormHelper) (a : String) :
    (∀ u, h.reverse a = some u →
      get_form_action h (set_form_action helper a) = u) ∧
    (h.reverse a = none → get_form_action h (set_form_action helper a) = a) := by
  constructor
  · intro u hu
    simp [get_form_action, set_form_action, hu]
  · intro hn
    simp [get_form_action, set_form_action, hn]

/-- Witness for C5 at concrete inputs: one reversible action, one not. -/
theorem uniform_c5_witness :
    get_form_action hostW (set_form_action {} ("known_url")) = "/known/" ∧
    get_form_action hostW (set_form_action {} ("/plain/")) = "/plain/" :=
  ⟨(uniform_c5 hostW {} ("known_url")).1 ("/known/") rfl,
   (uniform_c5 hostW {} ("/plain/")).2 rfl⟩

/- Claim C6. -/

/-- Claim C6: `set_form_method` stores `m.lower()` when that is `get` or
`post` and raises `FormHelpersException` otherwise, leaving the stored
`_form_method` unchanged on error; `set_form_style` likewise with
`default`/`inline` and `_form_style`.  The second component of the result
is the helper after the call: on the error paths it is the helper passed
in, unchanged. -/
theorem uniform_c6 (helper : FormHelper) (m s : String) :
    (lowerStr m ∈ (["get", "post"] : List String) →
      set_form_method helper m = (none, { helper with _form_method := lowerStr m })) ∧
    (lowerStr m ∉ (["get", "post"] : List String) →
      set_form_method helper m =
        (some ⟨"Only GET and POST are valid in the form_method helper attribute"⟩,
         helper)) ∧
    (lowerStr s ∈ (["default", "inline"] : List String) →
      set_form_style helper s = (none, { helper with _form_style := lowerStr s })) ∧
    (lowerStr s ∉ (["default", "inline"] : List String) →
      set_form_style helper s =
        (some ⟨"Only default and inline are valid in the form_style helper attribute"⟩,
         helper)) := by
  refine ⟨fun hm => ?_, fun hm => ?_, fun hs => ?_, fun hs => ?_⟩
  · simp [set_form_method, hm]
  · simp [set_form_method, hm]
  · simp [set_form_style, hs]
  · simp [set_form_style, hs]

/-- Witness for C6 at concrete inputs: mixed-case valid values and invalid
values for both setters. -/
theorem uniform_c6_witness :
    set_form_method {} ("PoSt") = (none, { ({} : FormHelper) with _form_method := lowerStr ("PoSt") }) ∧
    set_form_method {} ("put") =
      (some ⟨"Only GET and POST are valid in the form_method helper attribute"⟩,
       ({} : FormHelper)) ∧
    set_form_style {} ("iNLine") = (none, { ({} : FormHelper) with _form_style := lowerStr ("iNLine") }) ∧
    set_form_style {} ("fancy") =
      (some ⟨"Only default and inline are valid in the form_style helper attribute"⟩,
       ({} : FormHelper)) :=
  ⟨(uniform_c6 {} ("PoSt") ("iNLine")).1 (by decide),
   ((uniform_c6 {} ("put") ("fancy")).2).1 (by decide),
   ((uniform_c6 {} ("PoSt") ("iNLine")).2).2.1 (by decide),
   ((uniform_c6 {} ("put") ("fancy")).2).2.2 (by decide)⟩

/- Claim C10. -/

/-- The kinds of node in the rendering tree, as enumerated by the spec:
the layout-object classes, the four concrete `BaseInput` subclasses, and
plain string field names as leaves. -/
inductive NodeKind where
  | fieldName
  | layout
  | fieldset
  | multifield
  | div
  | row
  | column
  | buttonholder
  | html
  | submit
  | button
  | hidden
  | reset
deriving DecidableEq

/-- The kind of a rendering-tree node. -/
def nodeKind : LNode → NodeKind
  | .field _ => .fieldName
  | .layout _ => .layout
  | .fieldset _ _ _ _ => .fieldset
  | .multifield _ _ _ _ _ _ => .multifield
  | .div _ _ _ => .div
  | .row _ _ _ => .row
  | .column _ _ _ => .column
  | .buttonholder _ _ _ => .buttonholder
  | .html _ => .html
  | .input t _ _ _ =>
      match t with
      | .submit => .submit
      | .button => .button
      | .hidden => .hidden
      | .reset => .reset

/-- All node kinds of the rendering tree. -/
def allNodeKinds : List NodeKind :=
  [.fieldName, .layout, .fieldset, .multifield, .div, .row, .column,
   .buttonholder, .html, .submit, .button, .hidden, .reset]

/-- Claim C10: the rendering tree has a fixed and small shape: every node
is one of the kinds `Layout`, `Fieldset`, `MultiField`, `Div`, `Row`,
`Column`, `ButtonHolder`, `HTML`, the `BaseInput` subclasses `Submit`,
`Button`, `Hidden`, `Reset`, or a plain string field name leaf — and every
one of those kinds is realised by a node, so no other kind exists. -/
theorem uniform_c10 :
    (∀ n : LNode, nodeKind n ∈ allNodeKinds) ∧
    (∀ k : NodeKind, k ∈ allNodeKinds → ∃ n : LNode, nodeKind n = k) := by
  constructor
  · intro n
    cases n
    case input t n v f => cases t <;> simp [nodeKind, allNodeKinds]
    all_goals simp [nodeKind, allNodeKinds]
  · intro k _
    cases k
    exacts [⟨.field (""), rfl⟩, ⟨.layout [], rfl⟩, ⟨.fieldset ("") ("") ("") [], rfl⟩,
      ⟨.multifield ("") ("") ("") ("") [] [], rfl⟩, ⟨.div ("") ("") [], rfl⟩,
      ⟨.row ("") ("") [], rfl⟩, ⟨.column ("") ("") [], rfl⟩,
      ⟨.buttonholder ("") ("") [], rfl⟩, ⟨.html (""), rfl⟩,
      ⟨.input .submit ("") ("") (""), rfl⟩, ⟨.input .button ("") ("") (""), rfl⟩,
      ⟨.input .hidden ("") ("") (""), rfl⟩, ⟨.input .reset ("") ("") (""), rfl⟩]

/-- Witness for C10: the `multifield` kind is realised. -/
theorem uniform_c10_witness : ∃ n : LNode, nodeKind n = NodeKind.multifield :=
  uniform_c10.2 NodeKind.multifield (by decide)

/- Claim C1. -/

/-- Concatenation of a list of markup strings, in list order. -/
def concatAll : List String → String
  | [] => ""
  | s :: ss => s ++ concatAll ss

/-- Specification-side sequencing: apply `render_field` to each child in
argument order, threading the state left to right, and collect each child's
own markup in a list (rather than concatenating as the loop does). -/
def renderFieldSeq (h : Host) (FS : Bool) (fields : List LNode) (form : Form)
    (style : String) (ctx : Ctx) (template : String) (labelclass : Option String)
    (lo : Bool) (rendered : List String) :
    Except String (List String × List String × List LNode × List BoundField) :=
  match fields with
  | [] => .ok ([], rendered, [], [])
  | f :: fs =>
      match render_field h FS f form style ctx template labelclass lo rendered with
      | .error e => .error e
      | .ok (html, r1, f1, b1) =>
          match renderFieldSeq h FS fs form style ctx template labelclass lo r1 with
          | .error e => .error e
          | .ok (htmls, r2, fs2, b2) => .ok (html :: htmls, r2, f1 :: fs2, b1 ++ b2)

/-- The container loop equals the specification-side sequencing followed by
concatenation of the collected markup pieces. -/
lemma renderChildren_eq_seq (h : Host) (FS : Bool) (fields : List LNode) (form : Form)
    (style : String) (ctx : Ctx) (template : String) (labelclass : Option String)
    (lo : Bool) (rendered : List String) :
    renderChildren h FS fields form style ctx template labelclass lo rendered =
      match renderFieldSeq h FS fields form style ctx template labelclass lo rendered with
      | .error e => .error e
      | .ok (htmls, r2, fs2, b2) => .ok (concatAll htmls, r2, fs2, b2) := by
  induction fields generalizing rendered with
  | nil => rfl
  | cons f fs ih =>
      rw [renderChildren_cons, renderFieldSeq]
      cases render_field h FS f form style ctx template labelclass lo rendered with
      | error e => rfl
      | ok x =>
          obtain ⟨html, r1, f1, b1⟩ := x
          simp only
          rw [ih r1]
          cases renderFieldSeq h FS fs form style ctx template labelclass lo r1 with
          | error e => rfl
          | ok y =>
              obtain ⟨htmls, r2, fs2, b2⟩ := y
              simp [concatAll]

/-- Claim C1: `Layout.render(form, form_style, context)` returns exactly
the concatenation, in argument order, of `render_field(c_i, form,
form_style, context)` over its children (threading the rendering state left
to right); and for every child that exposes `render`, `render_field`
returns exactly `child.render(form, form_style, context)` — rendering is a
recursive tree traversal by string concatenation. -/
theorem uniform_c1 (h : Host) (FS : Bool) (cs : List LNode) (form : Form)
    (style : String) (ctx : Ctx) (rendered : List String) :
    (renderNode h FS (Layout cs) form style ctx rendered =
      match renderFieldSeq h FS cs form style ctx ("uni_form/field.html") none false rendered with
      | .error e => .error e
      | .ok (htmls, r1, cs1, _) => .ok (concatAll htmls, r1, .layout cs1)) ∧
    (∀ f, hasRender f = true → ∀ template labelclass lo,
      render_field h FS f form style ctx template labelclass lo rendered =
        match renderNode h FS f form style ctx rendered with
        | .error e => .error e
        | .ok (html, r1, f1) => .ok (html, r1, f1, [])) := by
  constructor
  · show renderNode h FS (.layout cs) form style ctx rendered = _
    rw [renderNode, renderChildren_eq_seq]
    cases renderFieldSeq h FS cs form style ctx ("uni_form/field.html") none false rendered with
    | error e => rfl
    | ok y =>
        obtain ⟨htmls, r2, fs2, b2⟩ := y
        rfl
  · intro f hf template labelclass lo
    exact render_field_dispatch h FS f hf form style ctx template labelclass lo rendered

/-- Witness for C1 at concrete inputs: a two-child layout, and dispatch on
an `HTML` node (which exposes `render`). -/
theorem uniform_c1_witness :
    renderNode hostW true (Layout [.field ("a"), .html ("x")]) formW ("") ctxW [] =
      .ok ("[uni_form/field.html:a]" ++ ("x" ++ ""), ["a"],
           .layout [.field ("a"), .html ("x")]) ∧
    render_field hostW true (.html ("x")) formW ("") ctxW ("t") none false [] =
      .ok ("x", [], .html ("x"), []) :=
  ⟨((uniform_c1 hostW true [.field ("a"), .html ("x")] formW ("") ctxW []).1).trans rfl,
   ((uniform_c1 hostW true [.field ("a"), .html ("x")] formW ("") ctxW []).2
      (.html ("x")) rfl ("t") none false).trans rfl⟩

/- Claims C2 and C8. -/

/-- Truth of "this call raised an exception". -/
def raised {α : Type} : Except String α → Bool
  | .error _ => true
  | .ok _ => false

/-- A concrete form with one field `a` and no errors. -/
def formA : Form :=
  { fields := [("a", ⟨0⟩)], errors := false }

/-- Counterexample to claim C2 as stated: the field name `é` is not a key
of the (empty) `form.fields` and `UNIFORM_FAIL_SILENTLY` is `True`, yet
`render_field` raises (the Python 2 `str`/`unicode` coercion of the name,
helpers.py lines 159-169, raises before the lookup, regardless of the
setting) instead of contributing the empty string. -/
theorem uniform_c2_counterexample :
    render_field hostW true (.field ("é")) formE ("") ctxW ("uni_form/field.html") none false [] =
      .error ("Field é is using forbidden unicode characters") ∧
    raised (render_field hostW true (.field ("é")) formE ("") ctxW ("uni_form/field.html")
      none false []) = true :=
  ⟨rfl, rfl⟩

/-- Claim C2 as amended: for every ASCII-coercible string field name that
is not a key of `form.fields`, `render_field` raises when
`UNIFORM_FAIL_SILENTLY` is `False`, and when it is `True` contributes the
empty string (logging a warning, not modelled); and resolution happens by
looking the name up in `form.fields`, never for arguments exposing
`render`, which are dispatched to their own `render` untouched. -/
theorem uniform_c2 (h : Host) (FS : Bool) (name : String) (form : Form)
    (style : String) (ctx : Ctx) (template : String) (labelclass : Option String)
    (lo : Bool) (rendered : List String)
    (hascii : asciiOnly name = true) (hmiss : form.fields.lookup name = none) :
    (FS = false →
      render_field h FS (.field name) form style ctx template labelclass lo rendered =
        .error ("Could not resolve form field " ++ name ++ ".")) ∧
    (FS = true →
      render_field h FS (.field name) form style ctx template labelclass lo rendered =
        .ok ("", (if name ∉ rendered then rendered ++ [name] else rendered),
             .field name, [])) ∧
    (∀ f, hasRender f = true →
      render_field h FS f form style ctx template labelclass lo rendered =
        match renderNode h FS f form style ctx rendered with
        | .error e => .error e
        | .ok (html, r1, f1) => .ok (html, r1, f1, [])) := by
  refine ⟨fun hFS => ?_, fun hFS => ?_,
    fun f hf => render_field_dispatch h FS f hf form style ctx template labelclass lo rendered⟩
  · subst hFS
    simp [render_field, render_field_str, hascii, hmiss]
  · subst hFS
    simp only [render_field, render_field_str, hascii, hmiss]
    by_cases hmem : name ∈ rendered
    · simp [hmem]
    · simp [hmem]

/-- Witness for the amended C2 at a concrete missing ASCII name, under both
settings of `UNIFORM_FAIL_SILENTLY`. -/
theorem uniform_c2_witness :
    render_field hostW false (.field ("zz")) formE ("") ctxW ("t") none false [] =
      .error ("Could not resolve form field zz.") ∧
    render_field hostW true (.field ("zz")) formE ("") ctxW ("t") none false [] =
      .ok ("", ["zz"], .field ("zz"), []) :=
  ⟨((uniform_c2 hostW false ("zz") formE ("") ctxW ("t") none false [] rfl rfl).1 rfl).trans rfl,
   ((uniform_c2 hostW true ("zz") formE ("") ctxW ("t") none false [] rfl rfl).2.1 rfl).trans rfl⟩

/-- Counterexample to claim C8 as stated: the field name `a` resolves in
`form.fields`, but with `UNIFORM_FAIL_SILENTLY` `False` and `a` already in
`form.rendered_fields`, `render_field` raises (helpers.py line 184) instead
of constructing and rendering a `BoundField`. -/
theorem uniform_c8_counterexample :
    render_field hostW false (.field ("a")) formA ("") ctxW ("uni_form/field.html") none false [("a" : String)] =
      .error ("A field should only be rendered once: a") ∧
    raised (render_field hostW false (.field ("a")) formA ("") ctxW ("uni_form/field.html")
      none false [("a" : String)]) = true :=
  ⟨rfl, rfl⟩

/-- Claim C8 as amended: for every ASCII-coercible string field name that
resolves in `form.fields` — provided `UNIFORM_FAIL_SILENTLY` is `True` or
the field has not already been rendered — `render_field` constructs the
`BoundField` pairing the form, the resolved field definition and the name,
renders it through the field template, and, exactly when a `layout_object`
is given, reports that bound field for appending to
`layout_object.bound_fields`. -/
theorem uniform_c8 (h : Host) (FS : Bool) (name : String) (fi : FieldInst) (form : Form)
    (style : String) (ctx : Ctx) (template : String) (labelclass : Option String)
    (lo : Bool) (rendered : List String)
    (hfound : form.fields.lookup name = some fi) (hascii : asciiOnly name = true)
    (hok : FS = true ∨ name ∉ rendered) :
    render_field h FS (.field name) form style ctx template labelclass lo rendered =
      .ok (h.render_to_string template ⟨form, fi, name⟩ labelclass,
           (if name ∉ rendered then rendered ++ [name] else rendered),
           .field name,
           if lo then [(⟨form, fi, name⟩ : BoundField)] else []) := by
  simp only [render_field, render_field_str, hascii, hfound]
  by_cases hmem : name ∈ rendered
  · rcases hok with hFS | hnot
    · subst hFS
      simp [hmem]
    · exact absurd hmem hnot
  · simp [hmem]

/-- Witness for the amended C8 at a concrete resolving name with a
`layout_object` given. -/
theorem uniform_c8_witness :
    render_field hostW true (.field ("a")) formW ("") ctxW ("tpl") (some ("lc")) true [] =
      .ok ("[tpl:a]", ["a"], .field ("a"), [(⟨formW, ⟨0⟩, "a"⟩ : BoundField)]) :=
  (uniform_c8 hostW true ("a") ⟨0⟩ formW ("") ctxW ("tpl") (some ("lc")) true []
    rfl rfl (Or.inl rfl)).trans rfl

/- Claim C3. -/

/-- Effect of the string-leaf path of `render_field` on
`form.rendered_fields`: it either appends the name (when not yet present)
or leaves the list unchanged with the name already present. -/
lemma render_field_str_rendered (h : Host) (FS : Bool) (name : String) (form : Form)
    (template : String) (labelclass : Option String) (lo : Bool)
    (rendered : List String) (out : String × List String × LNode × List BoundField)
    (hout : render_field_str h FS name form template labelclass lo rendered = .ok out) :
    out.2.1 = rendered ++ [name] ∨ (out.2.1 = rendered ∧ name ∈ rendered) := by
  obtain ⟨o1, r', o3, o4⟩ := out
  simp only [render_field_str] at hout
  rcases hlk : form.fields.lookup name with _ | fi <;> rw [hlk] at hout <;>
    split_ifs at hout <;> simp_all

/-- Effect of the leftover loop of `render_layout` on
`form.rendered_fields`: membership is preserved, and every processed key is
a member afterwards. -/
lemma render_leftover_mem (h : Host) (FS : Bool) (keys : List String) (form : Form)
    (style : String) (ctx : Ctx) (rendered : List String) (html2 : String)
    (rendered2 : List String)
    (hout : render_leftover h FS keys form style ctx rendered = .ok (html2, rendered2)) :
    (∀ x ∈ rendered, x ∈ rendered2) ∧ ∀ k ∈ keys, k ∈ rendered2 := by
  induction keys generalizing rendered html2 with
  | nil =>
      rw [render_leftover] at hout
      simp only [Except.ok.injEq, Prod.mk.injEq] at hout
      obtain ⟨-, h2⟩ := hout
      subst h2
      exact ⟨fun x hx => hx, by simp⟩
  | cons k ks ih =>
      rw [render_leftover] at hout
      by_cases hk : k ∈ rendered
      · rw [if_pos hk] at hout
        obtain ⟨hsub, hks⟩ := ih rendered html2 hout
        refine ⟨hsub, fun k2 hk2 => ?_⟩
        rcases List.mem_cons.mp hk2 with rfl | hk2
        · exact hsub _ hk
        · exact hks k2 hk2
      · rw [if_neg hk] at hout
        split at hout
        · exact absurd hout (by simp)
        · rename_i o1 r1 o3 o4 hrf
          split at hout
          · exact absurd hout (by simp)
          · rename_i h21 h22 hrl
            simp only [Except.ok.injEq, Prod.mk.injEq] at hout
            obtain ⟨-, h2⟩ := hout
            subst h2
            have hrf' : render_field_str h FS k form ("uni_form/field.html") none false
                rendered = .ok (o1, r1, o3, o4) := hrf
            have hstr := render_field_str_rendered h FS k form ("uni_form/field.html")
              none false rendered (o1, r1, o3, o4) hrf'
            obtain ⟨hsub2, hks2⟩ := ih r1 h21 hrl
            have hrsub : (∀ x ∈ rendered, x ∈ r1) ∧ k ∈ r1 := by
              rcases hstr with heq | ⟨heq, hmem⟩
              · rw [show ((o1, r1, o3, o4) : String × List String × LNode ×
                    List BoundField).2.1 = r1 from rfl] at heq
                subst heq
                exact ⟨fun x hx => List.mem_append_left _ hx, by simp⟩
              · rw [show ((o1, r1, o3, o4) : String × List String × LNode ×
                    List BoundField).2.1 = r1 from rfl] at heq
                subst heq
                exact ⟨fun x hx => hx, hmem⟩
            refine ⟨fun x hx => hsub2 x (hrsub.1 x hx), fun k2 hk2 => ?_⟩
            rcases List.mem_cons.mp hk2 with rfl | hk2
            · exact hsub2 _ hrsub.2
            · exact hks2 k2 hk2

/-- Claim C3: for every form and every `FormHelper` whose layout is set
(and whose stored style is valid, as the setters guarantee), a successful
`render_layout(form, context)` first resets `form.rendered_fields` to the
empty list (visible as the `[]` initial state of the layout render), then
renders the layout, then appends the leftover loop's rendering of the keys
of `form.fields` the layout did not render, in `form.fields` key order,
after the layout's output, and returns the concatenation marked as a safe
string; afterwards every key of `form.fields` is a member of
`form.rendered_fields`. -/
theorem uniform_c3 (h : Host) (FS : Bool) (helper : FormHelper) (form : Form)
    (ctx : Ctx) (lay : LNode) (style : String)
    (out : SafeString × List String × LNode)
    (hlay : helper.layout = some lay) (hstyle : get_form_style helper = some style)
    (hout : render_layout h FS helper form ctx = .ok out) :
    (∃ html rendered1 lay1 html2,
      renderNode h FS lay form style ctx [] = .ok (html, rendered1, lay1) ∧
      render_leftover h FS (form.fields.map Prod.fst) form style ctx rendered1 =
        .ok (html2, out.2.1) ∧
      out.1 = mark_safe (html ++ html2) ∧ out.2.2 = lay1) ∧
    (∀ k ∈ form.fields.map Prod.fst, k ∈ out.2.1) := by
  obtain ⟨ss, r2, lay2⟩ := out
  rw [render_layout, hlay, hstyle] at hout
  simp only at hout
  split at hout
  · exact absurd hout (by simp)
  · rename_i html rendered1 lay1 hrn
    split at hout
    · exact absurd hout (by simp)
    · rename_i html2 r2' hrl
      simp only [Except.ok.injEq, Prod.mk.injEq] at hout
      obtain ⟨h1, h2, h3⟩ := hout
      subst h1
      subst h2
      subst h3
      exact ⟨⟨html, rendered1, lay1, html2, hrn, hrl, rfl, rfl⟩,
        (render_leftover_mem h FS (form.fields.map Prod.fst) form style ctx rendered1
          html2 r2' hrl).2⟩

/-- A concrete helper whose layout is an empty `Layout`, for the C3
witness. -/
def helperW3 : FormHelper :=
  { layout := some (.layout []) }

/-- Witness for C3 at concrete inputs: empty layout over a two-field form,
so both fields are appended by the leftover loop and end up rendered. -/
theorem uniform_c3_witness :
    (∃ html rendered1 lay1 html2,
      renderNode hostW true (.layout []) formW ("") ctxW [] = .ok (html, rendered1, lay1) ∧
      render_leftover hostW true (formW.fields.map Prod.fst) formW ("") ctxW rendered1 =
        .ok (html2, (["a", "b"] : List String)) ∧
      (mark_safe ("" ++ ("[uni_form/field.html:a]" ++ ("[uni_form/field.html:b]" ++ "")))) =
        mark_safe (html ++ html2) ∧ LNode.layout [] = lay1) ∧
    (∀ k ∈ formW.fields.map Prod.fst, k ∈ (["a", "b"] : List String)) :=
  uniform_c3 hostW true helperW3 formW ctxW (.layout []) ("")
    (mark_safe ("" ++ ("[uni_form/field.html:a]" ++ ("[uni_form/field.html:b]" ++ ""))),
     (["a", "b"] : List String), .layout [])
    rfl rfl rfl

/- Claim C7. -/

/-- Claim C7: every layout-object kind (`Layout`, `Fieldset`, `MultiField`,
`Div`, `Row`, `Column`, `ButtonHolder`, `HTML`, and the `BaseInput`
subclasses) exposes `render`; and every node exposing `render` is rendered
by `render_field` as exactly `node.render(form, form_style, context)` — a
function of precisely the form, the form style and the rendering context,
ignoring `render_field`'s remaining arguments and producing a markup
string. -/
theorem uniform_c7 :
    (∀ cs, hasRender (.layout cs) = true) ∧
    (∀ c i l cs, hasRender (.fieldset c i l cs) = true) ∧
    (∀ lc lh c i b cs, hasRender (.multifield lc lh c i b cs) = true) ∧
    (∀ c i cs, hasRender (.div c i cs) = true) ∧
    (∀ c i cs, hasRender (.row c i cs) = true) ∧
    (∀ c i cs, hasRender (.column c i cs) = true) ∧
    (∀ c i cs, hasRender (.buttonholder c i cs) = true) ∧
    (∀ s, hasRender (.html s) = true) ∧
    (∀ t n v f, hasRender (.input t n v f) = true) ∧
    (∀ (h : Host) (FS : Bool) (f : LNode), hasRender f = true →
      ∀ (form : Form) (style : String) (ctx : Ctx) (template : String)
        (labelclass : Option String) (lo : Bool) (rendered : List String),
        render_field h FS f form style ctx template labelclass lo rendered =
          match renderNode h FS f form style ctx rendered with
          | .error e => .error e
          | .ok (html, r1, f1) => .ok (html, r1, f1, [])) :=
  ⟨fun _ => rfl, fun _ _ _ _ => rfl, fun _ _ _ _ _ _ => rfl, fun _ _ _ => rfl,
   fun _ _ _ => rfl, fun _ _ _ => rfl, fun _ _ _ => rfl, fun _ => rfl,
   fun _ _ _ _ => rfl,
   fun h FS f hf form style ctx template labelclass lo rendered =>
     render_field_dispatch h FS f hf form style ctx template labelclass lo rendered⟩

/-- Witness for C7: dispatch on a concrete `Submit` input node, whose
render produces the input-tag markup. -/
theorem uniform_c7_witness :
    render_field hostW true (.input .submit ("Save") ("Save") ("submit submitButton"))
        formW ("") ctxW ("t") none false [] =
      .ok (baseinput_template hostW ("submit") ("Save") ("Save") ("submit submitButton"),
           [], .input .submit ("Save") ("Save") ("submit submitButton"), []) :=
  (uniform_c7.2.2.2.2.2.2.2.2.2 hostW true
    (.input .submit ("Save") ("Save") ("submit submitButton")) rfl
    formW ("") ctxW ("t") none false []).trans rfl

/- Claim C9. -/

/-- Effect of one successful `MultiField.render` on the instance: with
`form.errors` truthy, the returned node carries `css_class` with `" error"`
appended (helpers.py lines 330-331), whatever the children produced. -/
lemma multifield_render_css (h : Host) (FS : Bool) (lc lh cls cid : String)
    (bfs : List BoundField) (cs : List LNode) (form : Form) (style : String)
    (ctx : Ctx) (rendered : List String) (s1 : String) (r1 : List String) (n1 : LNode)
    (herr : form.errors = true)
    (hout : renderNode h FS (.multifield lc lh cls cid bfs cs) form style ctx rendered =
      .ok (s1, r1, n1)) :
    ∃ b1 c1, n1 = .multifield lc lh (cls ++ " error") cid b1 c1 := by
  rw [renderNode] at hout
  simp only [herr, if_true] at hout
  split at hout
  · exact absurd hout (by simp)
  · rename_i fields_output rendered1 fields1 bound_fields1 hchild
    simp only [Except.ok.injEq, Prod.mk.injEq] at hout
    obtain ⟨-, -, h3⟩ := hout
    exact ⟨bound_fields1, fields1, h3.symm⟩

/-- Claim C9: for a form with non-empty errors, each successful call to
`MultiField.render` appends `" error"` to the instance's `css_class`, so
two successive renders of the same `MultiField` instance leave `css_class`
with `" error"` appended twice — `MultiField.render` is not idempotent on
the layout object's state. -/
theorem uniform_c9 (h : Host) (FS : Bool) (lc lh cls cid : String)
    (bfs : List BoundField) (cs : List LNode) (form : Form) (style : String)
    (ctx : Ctx) (rendered : List String) (s1 s2 : String) (r1 r2 : List String)
    (n1 n2 : LNode)
    (herr : form.errors = true)
    (h1 : renderNode h FS (.multifield lc lh cls cid bfs cs) form style ctx rendered =
      .ok (s1, r1, n1))
    (h2 : renderNode h FS n1 form style ctx r1 = .ok (s2, r2, n2)) :
    (∃ b1 c1, n1 = .multifield lc lh (cls ++ " error") cid b1 c1) ∧
    ∃ b2 c2, n2 = .multifield lc lh (cls ++ " error" ++ " error") cid b2 c2 := by
  obtain ⟨b1, c1, hn1⟩ :=
    multifield_render_css h FS lc lh cls cid bfs cs form style ctx rendered s1 r1 n1 herr h1
  subst hn1
  obtain ⟨b2, c2, hn2⟩ :=
    multifield_render_css h FS lc lh (cls ++ " error") cid b1 c1 form style ctx r1
      s2 r2 n2 herr h2
  exact ⟨⟨b1, c1, rfl⟩, ⟨b2, c2, hn2⟩⟩

/-- Witness for C9: a childless `MultiField` with default `ctrlHolder`
class, rendered twice against a form with errors: the css class ends up
`"ctrlHolder error error"`. -/
theorem uniform_c9_witness :
    (∃ b1 c1, LNode.multifield ("blockLabel") ("L") ("ctrlHolder error") ("") [] [] =
      .multifield ("blockLabel") ("L") ("ctrlHolder" ++ " error") ("") b1 c1) ∧
    (∃ b2 c2, LNode.multifield ("blockLabel") ("L") ("ctrlHolder error error") ("") [] [] =
      .multifield ("blockLabel") ("L") ("ctrlHolder" ++ " error" ++ " error") ("") b2 c2) :=
  uniform_c9 hostW true ("blockLabel") ("L") ("ctrlHolder") ("") [] [] formW ("") ctxW []
    (multifield_template hostW ("") ("ctrlHolder error") ("blockLabel") ("L") [] (""))
    (multifield_template hostW ("") ("ctrlHolder error error") ("blockLabel") ("L") [] (""))
    [] []
    (.multifield ("blockLabel") ("L") ("ctrlHolder error") ("") [] [])
    (.multifield ("blockLabel") ("L") ("ctrlHolder error error") ("") [] [])
    rfl rfl rfl

/- Claim C4. -/

/-- Claim C4: `get_attributes()` always returns a dictionary (the stored
form style being valid, as the setters guarantee); it always contains the
keys `form_method`, `form_tag` and `form_style`, and contains
`form_action`, `id`, `class`, `inputs`, `form_error_title` and
`formset_error_title` exactly when the corresponding helper attribute is
non-empty — string values stripped of surrounding whitespace. -/
theorem uniform_c4 (h : Host) (helper : FormHelper)
    (hstyle : helper._form_style = "default" ∨ helper._form_style = "inline") :
    ∃ items, get_attributes h helper = some items ∧
      ("form_method", AttrVal.str (stripStr (get_form_method helper))) ∈ items ∧
      ("form_tag", AttrVal.bool helper.form_tag) ∈ items ∧
      (∃ style, get_form_style helper = some style ∧
        ("form_style", AttrVal.str (stripStr style)) ∈ items) ∧
      ((∃ v, ("form_action", v) ∈ items) ↔ get_form_action h helper ≠ "") ∧
      (get_form_action h helper ≠ "" →
        ("form_action", AttrVal.str (stripStr (get_form_action h helper))) ∈ items) ∧
      ((∃ v, ("id", v) ∈ items) ↔ helper.form_id ≠ "") ∧
      (helper.form_id ≠ "" → ("id", AttrVal.str (stripStr helper.form_id)) ∈ items) ∧
      ((∃ v, ("class", v) ∈ items) ↔ helper.form_class ≠ "") ∧
      (helper.form_class ≠ "" →
        ("class", AttrVal.str (stripStr helper.form_class)) ∈ items) ∧
      ((∃ v, ("inputs", v) ∈ items) ↔ ¬ helper.inputs.isEmpty) ∧
      (¬ helper.inputs.isEmpty → ("inputs", AttrVal.inputs helper.inputs) ∈ items) ∧
      ((∃ v, ("form_error_title", v) ∈ items) ↔ helper.form_error_title ≠ "") ∧
      (helper.form_error_title ≠ "" →
        ("form_error_title", AttrVal.str (stripStr helper.form_error_title)) ∈ items) ∧
      ((∃ v, ("formset_error_title", v) ∈ items) ↔ helper.formset_error_title ≠ "") ∧
      (helper.formset_error_title ≠ "" →
        ("formset_error_title", AttrVal.str (stripStr helper.formset_error_title)) ∈ items) := by
  have hsty : ∃ style, get_form_style helper = some style := by
    rcases hstyle with h1 | h1 <;> simp [get_form_style, h1]
  obtain ⟨style, hsty⟩ := hsty
  refine ⟨attr_items h helper style, by rw [get_attributes, hsty], ?_, ?_,
    ⟨style, hsty, ?_⟩, ?_, ?_, ?_, ?_, ?_, ?_, ?_, ?_, ?_, ?_, ?_, ?_⟩
  · simp [attr_items]
  · simp [attr_items]
  · simp [attr_items]
  · by_cases hc : get_form_action h helper = "" <;> simp [attr_items, hc]
  · intro hc
    simp [attr_items, hc]
  · by_cases hc : helper.form_id = "" <;> simp [attr_items, hc]
  · intro hc
    simp [attr_items, hc]
  · by_cases hc : helper.form_class = "" <;> simp [attr_items, hc]
  · intro hc
    simp [attr_items, hc]
  · by_cases hc : helper.inputs.isEmpty <;> simp [attr_items, hc]
  · intro hc
    simp [attr_items, hc]
  · by_cases hc : helper.form_error_title = "" <;> simp [attr_items, hc]
  · intro hc
    simp [attr_items, hc]
  · by_cases hc : helper.formset_error_title = "" <;> simp [attr_items, hc]
  · intro hc
    simp [attr_items, hc]

/-- Witness for C4 at the default helper: the three unconditional keys are
present and every conditional key is absent because every corresponding
attribute is empty. -/
theorem uniform_c4_witness :
    ∃ items, get_attributes hostW {} = some items ∧
      ("form_method", AttrVal.str (stripStr (get_form_method {}))) ∈ items ∧
      ("form_tag", AttrVal.bool ({} : FormHelper).form_tag) ∈ items ∧
      (∃ style, get_form_style {} = some style ∧
        ("form_style", AttrVal.str (stripStr style)) ∈ items) ∧
      ((∃ v, ("form_action", v) ∈ items) ↔ get_form_action hostW {} ≠ "") ∧
      (get_form_action hostW {} ≠ "" →
        ("form_action", AttrVal.str (stripStr (get_form_action hostW {}))) ∈ items) ∧
      ((∃ v, ("id", v) ∈ items) ↔ ({} : FormHelper).form_id ≠ "") ∧
      (({} : FormHelper).form_id ≠ "" →
        ("id", AttrVal.str (stripStr ({} : FormHelper).form_id)) ∈ items) ∧
      ((∃ v, ("class", v) ∈ items) ↔ ({} : FormHelper).form_class ≠ "") ∧
      (({} : FormHelper).form_class ≠ "" →
        ("class", AttrVal.str (stripStr ({} : FormHelper).form_class)) ∈ items) ∧
      ((∃ v, ("inputs", v) ∈ items) ↔ ¬ ({} : FormHelper).inputs.isEmpty) ∧
      (¬ ({} : FormHelper).inputs.isEmpty →
        ("inputs", AttrVal.inputs ({} : FormHelper).inputs) ∈ items) ∧
      ((∃ v, ("form_error_title", v) ∈ items) ↔ ({} : FormHelper).form_error_title ≠ "") ∧
      (({} : FormHelper).form_error_title ≠ "" →
        ("form_error_title", AttrVal.str (stripStr ({} : FormHelper).form_error_title)) ∈ items) ∧
      ((∃ v, ("formset_error_title", v) ∈ items) ↔
        ({} : FormHelper).formset_error_title ≠ "") ∧
      (({} : FormHelper).formset_error_title ≠ "" →
        ("formset_error_title",
         AttrVal.str (stripStr ({} : FormHelper).formset_error_title)) ∈ items) :=
  uniform_c4 hostW {} (Or.inl rfl)

end UniForm
